import Mathlib

/-!
EQAlpha3 (Api550bAudioProcessor): coefficient derivation and block processing.

A shallow embedding of `PluginProcessor.h` / `PluginProcessor.cpp`.

* `float` / `double` values are idealised as elements of a linearly ordered field `K`
  with a floor function (`ℚ` for evaluation, `ℝ` where `tanh` is the real one);
  rounding is not modelled.
* JUCE and libm routines whose bodies are outside the repository
  (`Decibels::decibelsToGain`, `std::tanh`, `IIR::Filter::process`, `IIR::Filter::reset`)
  are fields of a `Library` record; the `IIR::Coefficients` factory calls are kept
  symbolically, one constructor per factory function with the arguments passed to it.
* `Impl::saturationDrive` is a static data member, so it lives in its own record `Impl`,
  outside the per-instance state `Api550bAudioProcessor`.
-/

namespace Api550b

/-- The parameter identifiers of `namespace Params`. -/
inductive Params
  | LOW_FREQ | LOW_GAIN | LOW_SHELF | LOW_MUTE | LOW_BYPASS
  | LM_FREQ | LM_GAIN | LM_MUTE | LM_BYPASS
  | HM_FREQ | HM_GAIN | HM_MUTE | HM_BYPASS
  | HIGH_FREQ | HIGH_GAIN | HIGH_SHELF | HIGH_MUTE | HIGH_BYPASS
  | SAT_DRIVE | Q_MODE
  deriving DecidableEq, Repr

/-- The value of `juce::jmin (a, b)`: `b < a ? b : a`. -/
def jmin {α : Type} [LinearOrder α] (a b : α) : α :=
  if b < a then b else a

/-- The value of `juce::jlimit (lowerLimit, upperLimit, valueToConstrain)`. -/
def jlimit {α : Type} [LinearOrder α] (lowerLimit upperLimit valueToConstrain : α) : α :=
  if valueToConstrain < lowerLimit then lowerLimit
  else if upperLimit < valueToConstrain then upperLimit
  else valueToConstrain

/-- A `juce::dsp::IIR::Coefficients<float>` object, recorded as the call that built it:
`firstOrder` is the four-argument constructor (a default `IIR::Filter` holds
`Coefficients (1, 0, 1, 0)`), the others are the static factory functions. -/
inductive Coefficients (K : Type)
  | firstOrder (b0 b1 a0 a1 : K)
  | makeAllPass (sampleRate frequency : K)
  | makeLowShelf (sampleRate cutOffFrequency Q gainFactor : K)
  | makeHighShelf (sampleRate cutOffFrequency Q gainFactor : K)
  | makePeakFilter (sampleRate centreFrequency Q gainFactor : K)
  deriving DecidableEq, Repr

/-- The four biquad topologies of the equalizer, and `raw` for coefficients given directly. -/
inductive Topology
  | raw | allPass | lowShelf | highShelf | peak
  deriving DecidableEq, Repr

/-- Which factory function built a coefficient set. -/
def Coefficients.topology {K : Type} : Coefficients K → Topology
  | .firstOrder _ _ _ _ => .raw
  | .makeAllPass _ _ => .allPass
  | .makeLowShelf _ _ _ _ => .lowShelf
  | .makeHighShelf _ _ _ _ => .highShelf
  | .makePeakFilter _ _ _ _ => .peak

/-- The frequency argument handed to the factory function. -/
def Coefficients.frequency {K : Type} : Coefficients K → Option K
  | .firstOrder _ _ _ _ => none
  | .makeAllPass _ f => some f
  | .makeLowShelf _ f _ _ => some f
  | .makeHighShelf _ f _ _ => some f
  | .makePeakFilter _ f _ _ => some f

/-- The Q argument handed to the factory function (the two-argument `makeAllPass` takes none). -/
def Coefficients.Q {K : Type} : Coefficients K → Option K
  | .firstOrder _ _ _ _ => none
  | .makeAllPass _ _ => none
  | .makeLowShelf _ _ q _ => some q
  | .makeHighShelf _ _ q _ => some q
  | .makePeakFilter _ _ q _ => some q

/-- The gain-factor argument handed to the factory function. -/
def Coefficients.gainFactor {K : Type} : Coefficients K → Option K
  | .firstOrder _ _ _ _ => none
  | .makeAllPass _ _ => none
  | .makeLowShelf _ _ _ g => some g
  | .makeHighShelf _ _ _ g => some g
  | .makePeakFilter _ _ _ g => some g

/-- An audio buffer: one list of samples per channel. -/
abbrev AudioBuffer (K : Type) := List (List K)

/-- Routines of JUCE and libm that the processor calls and whose bodies are not part of
the repository. -/
structure Library (K : Type) where
  /-- The function `juce::Decibels::decibelsToGain`. -/
  decibelsToGain : K → K
  /-- The function `std::tanh`. -/
  tanh : K → K
  /-- The function `IIR::Filter::process`: coefficients, filter history and block in,
  new history and filtered block out. -/
  iirProcess : Coefficients K → List K → AudioBuffer K → List K × AudioBuffer K
  /-- The filter history that `IIR::Filter::reset` leaves for the given coefficients. -/
  iirReset : Coefficients K → List K

/-- A `juce::dsp::IIR::Filter<float>`: the active coefficient set and the filter history. -/
structure IIRFilter (K : Type) where
  coefficients : Coefficients K
  state : List K
  deriving DecidableEq, Repr

/-- The function pointers a `WaveShaper::functionToUse` is assigned in this program. -/
inductive WaveShaperFunction
  | applySaturation
  deriving DecidableEq, Repr

/-- The static data of `Api550bAudioProcessor::Impl`, shared by all instances. -/
structure Impl (K : Type) where
  saturationDrive : K
  deriving DecidableEq, Repr

/-- The state of one `Api550bAudioProcessor` instance. `apvts` is the raw parameter value of
each identifier, `sampleRate` what `getSampleRate()` returns, and `updateFiltersCalls` is a
ghost counter of the calls of `updateFilters` on this instance. -/
structure Api550bAudioProcessor (K : Type) where
  apvts : Params → K
  sampleRate : K
  totalNumInputChannels : Nat
  totalNumOutputChannels : Nat
  lowFilter : IIRFilter K
  lowMidFilter : IIRFilter K
  highMidFilter : IIRFilter K
  highFilter : IIRFilter K
  saturationFunctionToUse : Option WaveShaperFunction
  parametersChanged : Bool
  updateFiltersCalls : Nat

section Core

variable {K : Type} [LinearOrderedField K] [FloorRing K]

/-- The table `lowFreqValues` of `updateFilters`. -/
def lowFreqValues : List K := [40, 75, 150, 300, 600, 1200, 2400]

/-- The table `highFreqValues` of `updateFilters`. -/
def highFreqValues : List K := [800, 1500, 3000, 5000, 7000, 10000, 12500]

/-- The table `gainDbValues` of `updateFilters`. -/
def gainDbValues : List K := [-12, -9, -6, -3, 0, 3, 6, 9, 12]

/-- The conversion `static_cast<size_t>` of a float: truncation toward zero. C++ defines the
conversion only when the truncated value is a `size_t`, that is for `-1 < v < 2 ^ 64`, and
there it is `⌊v⌋₊`. Outside that range the conversion is undefined behaviour, and the value
this definition has there (0 for `v ≤ -1`, the unbounded floor for `2 ^ 64 ≤ v`) describes no
behaviour of the program; statements about the lookup are made for indices below `2 ^ 64`. -/
def static_cast_size_t (v : K) : Nat := ⌊v⌋₊

/-- The position `juce::jmin (index, size - 1)` that the lambda `getParamValue` reads. -/
def getParamIndex (apvts : Params → K) (paramID : Params) (size : Nat) : Nat :=
  let index := static_cast_size_t (apvts paramID)
  jmin index (size - 1)

/-- The lambda `getParamValue` of `updateFilters`: `values[jmin (index, size - 1)]`. -/
def getParamValue (apvts : Params → K) (paramID : Params) (values : List K) (size : Nat) : K :=
  values.getD (getParamIndex apvts paramID size) 0

/-- The function `Impl::applySaturation`, with the static `saturationDrive` it reads. -/
def applySaturation (tanh : K → K) (saturationDrive x : K) : K :=
  if saturationDrive > 0.001 then tanh (saturationDrive * x) / saturationDrive else x

/-- The method `updateFilters`. -/
def updateFilters (lib : Library K) (_impl : Impl K) (p : Api550bAudioProcessor K) :
    Impl K × Api550bAudioProcessor K :=
  let sampleRate := p.sampleRate
  let useProportionalQ : Bool := decide (p.apvts Params.Q_MODE > 0.5)
  let fixedQ : K := 1.5
  -- Update saturation
  let saturationDrive := p.apvts Params.SAT_DRIVE
  -- Low Band
  let lowMute : Bool := decide (p.apvts Params.LOW_MUTE > 0.5)
  let lowBypass : Bool := decide (p.apvts Params.LOW_BYPASS > 0.5)
  let lowFreq := getParamValue p.apvts Params.LOW_FREQ lowFreqValues (lowFreqValues : List K).length
  let lowGain := if lowMute then 0
    else getParamValue p.apvts Params.LOW_GAIN gainDbValues (gainDbValues : List K).length
  let lowQ := if useProportionalQ then jlimit 0.7 2.2 (1.0 + 0.2 * |lowGain|) else fixedQ
  let lowShelf : Bool := decide (p.apvts Params.LOW_SHELF > 0.5)
  let lowCoefficients :=
    if lowBypass then Coefficients.makeAllPass sampleRate lowFreq
    else if lowShelf then
      Coefficients.makeLowShelf sampleRate lowFreq lowQ (lib.decibelsToGain lowGain)
    else Coefficients.makePeakFilter sampleRate lowFreq lowQ (lib.decibelsToGain lowGain)
  -- Low-Mid Band
  let lmMute : Bool := decide (p.apvts Params.LM_MUTE > 0.5)
  let lmBypass : Bool := decide (p.apvts Params.LM_BYPASS > 0.5)
  let lmFreq := getParamValue p.apvts Params.LM_FREQ lowFreqValues (lowFreqValues : List K).length
  let lmGain := if lmMute then 0
    else getParamValue p.apvts Params.LM_GAIN gainDbValues (gainDbValues : List K).length
  let lmQ := if useProportionalQ then jlimit 0.7 2.2 (1.0 + 0.2 * |lmGain|) else fixedQ
  let lmCoefficients :=
    if lmBypass then Coefficients.makeAllPass sampleRate lmFreq
    else Coefficients.makePeakFilter sampleRate lmFreq lmQ (lib.decibelsToGain lmGain)
  -- High-Mid Band
  let hmMute : Bool := decide (p.apvts Params.HM_MUTE > 0.5)
  let hmBypass : Bool := decide (p.apvts Params.HM_BYPASS > 0.5)
  let hmFreq := getParamValue p.apvts Params.HM_FREQ highFreqValues (highFreqValues : List K).length
  let hmGain := if hmMute then 0
    else getParamValue p.apvts Params.HM_GAIN gainDbValues (gainDbValues : List K).length
  let hmQ := if useProportionalQ then jlimit 0.7 2.2 (1.0 + 0.2 * |hmGain|) else fixedQ
  let hmCoefficients :=
    if hmBypass then Coefficients.makeAllPass sampleRate hmFreq
    else Coefficients.makePeakFilter sampleRate hmFreq hmQ (lib.decibelsToGain hmGain)
  -- High Band
  let highMute : Bool := decide (p.apvts Params.HIGH_MUTE > 0.5)
  let highBypass : Bool := decide (p.apvts Params.HIGH_BYPASS > 0.5)
  let highFreq := getParamValue p.apvts Params.HIGH_FREQ highFreqValues (highFreqValues : List K).length
  let highGain := if highMute then 0
    else getParamValue p.apvts Params.HIGH_GAIN gainDbValues (gainDbValues : List K).length
  let highQ := if useProportionalQ then jlimit 0.7 2.2 (1.0 + 0.2 * |highGain|) else fixedQ
  let highShelf : Bool := decide (p.apvts Params.HIGH_SHELF > 0.5)
  let highCoefficients :=
    if highBypass then Coefficients.makeAllPass sampleRate highFreq
    else if highShelf then
      Coefficients.makeHighShelf sampleRate (highFreq * 1.3) highQ (lib.decibelsToGain highGain)
    else Coefficients.makePeakFilter sampleRate highFreq highQ (lib.decibelsToGain highGain)
  ({ saturationDrive := saturationDrive },
   { p with
     parametersChanged := false
     saturationFunctionToUse := some WaveShaperFunction.applySaturation
     lowFilter := { p.lowFilter with coefficients := lowCoefficients }
     lowMidFilter := { p.lowMidFilter with coefficients := lmCoefficients }
     highMidFilter := { p.highMidFilter with coefficients := hmCoefficients }
     highFilter := { p.highFilter with coefficients := highCoefficients }
     updateFiltersCalls := p.updateFiltersCalls + 1 })

/-- The method `prepareToPlay`: each filter is prepared, which resets its history, and
`updateFilters` runs. The host has set the rate that `getSampleRate()` returns to
`sampleRate` before the call. -/
def prepareToPlay (lib : Library K) (impl : Impl K) (p : Api550bAudioProcessor K)
    (sampleRate : K) (_samplesPerBlock : Nat) : Impl K × Api550bAudioProcessor K :=
  let prepare := fun (f : IIRFilter K) => { f with state := lib.iirReset f.coefficients }
  updateFilters lib impl
    { p with
      sampleRate := sampleRate
      lowFilter := prepare p.lowFilter
      lowMidFilter := prepare p.lowMidFilter
      highMidFilter := prepare p.highMidFilter
      highFilter := prepare p.highFilter }

/-- The method `parameterChanged`: it only raises the flag. -/
def parameterChanged (p : Api550bAudioProcessor K) : Api550bAudioProcessor K :=
  { p with parametersChanged := true }

/-- One `IIR::Filter::process (context)` call on a block, in place. -/
def IIRFilter.process (lib : Library K) (f : IIRFilter K) (block : AudioBuffer K) :
    IIRFilter K × AudioBuffer K :=
  let r := lib.iirProcess f.coefficients f.state block
  ({ f with state := r.1 }, r.2)

/-- One `WaveShaper::process (context)` call: `functionToUse` applied to every sample. A
shaper whose `functionToUse` was never assigned has no function to call; the block is then
left as it is (`updateFilters` assigns it before the first block is shaped, since
`parametersChanged` starts set). -/
def waveShaperProcess (lib : Library K) (impl : Impl K)
    (functionToUse : Option WaveShaperFunction) (block : AudioBuffer K) : AudioBuffer K :=
  match functionToUse with
  | some WaveShaperFunction.applySaturation =>
    block.map (List.map (applySaturation lib.tanh impl.saturationDrive))
  | none => block

/-- The method `processBlock`. -/
def processBlock (lib : Library K) (impl : Impl K) (p : Api550bAudioProcessor K)
    (buffer : AudioBuffer K) : Impl K × Api550bAudioProcessor K × AudioBuffer K :=
  if buffer.length = 0 ∨ p.totalNumInputChannels ≠ p.totalNumOutputChannels then
    (impl, p, buffer)
  else
    let s := if p.parametersChanged then updateFilters lib impl p else (impl, p)
    let impl1 := s.1
    let p1 := s.2
    let r1 := if ¬ (p1.apvts Params.LOW_BYPASS > 0.5) then p1.lowFilter.process lib buffer
      else (p1.lowFilter, buffer)
    let r2 := if ¬ (p1.apvts Params.LM_BYPASS > 0.5) then p1.lowMidFilter.process lib r1.2
      else (p1.lowMidFilter, r1.2)
    let r3 := if ¬ (p1.apvts Params.HM_BYPASS > 0.5) then p1.highMidFilter.process lib r2.2
      else (p1.highMidFilter, r2.2)
    let r4 := if ¬ (p1.apvts Params.HIGH_BYPASS > 0.5) then p1.highFilter.process lib r3.2
      else (p1.highFilter, r3.2)
    (impl1,
     { p1 with lowFilter := r1.1, lowMidFilter := r2.1, highMidFilter := r3.1,
               highFilter := r4.1 },
     waveShaperProcess lib impl1 p1.saturationFunctionToUse r4.2)

/-- The default value of every parameter, as `createParameterLayout` declares it (a choice
parameter holds the index of its choice, a boolean parameter 0 or 1). -/
def createParameterLayout : Params → K
  | Params.LOW_FREQ => 3
  | Params.LOW_GAIN => 4
  | Params.LM_FREQ => 4
  | Params.LM_GAIN => 4
  | Params.HM_FREQ => 2
  | Params.HM_GAIN => 4
  | Params.HIGH_FREQ => 3
  | Params.HIGH_GAIN => 4
  | Params.SAT_DRIVE => 2.0
  | _ => 0

/-- The initial value `2.0f` of the static `Impl::saturationDrive`. -/
def Impl.initial : Impl K := { saturationDrive := 2.0 }

/-- The state the constructor leaves: stereo input and output buses, the default parameter
values, default-constructed filters, `parametersChanged{ true }`. -/
def Api550bAudioProcessor.construct (lib : Library K) : Api550bAudioProcessor K :=
  let filter : IIRFilter K :=
    { coefficients := Coefficients.firstOrder 1 0 1 0
      state := lib.iirReset (Coefficients.firstOrder 1 0 1 0) }
  { apvts := createParameterLayout
    sampleRate := 0
    totalNumInputChannels := 2
    totalNumOutputChannels := 2
    lowFilter := filter
    lowMidFilter := filter
    highMidFilter := filter
    highFilter := filter
    saturationFunctionToUse := none
    parametersChanged := true
    updateFiltersCalls := 0 }

/-- A write of one parameter value in the parameter store followed by the listener callback
`parameterChanged` it fires. -/
def setParameter (paramID : Params) (newValue : K) (p : Api550bAudioProcessor K) :
    Api550bAudioProcessor K :=
  parameterChanged { p with apvts := Function.update p.apvts paramID newValue }

/-- A run of parameter writes, each firing `parameterChanged`, in list order. -/
def applyChanges (changes : List (Params × K)) (p : Api550bAudioProcessor K) :
    Api550bAudioProcessor K :=
  changes.foldl (fun acc c => setParameter c.1 c.2 acc) p

/-- The processor with one raw parameter value replaced and nothing else touched: the
processor as it would be had the store held `newValue` for `paramID`. -/
def Api550bAudioProcessor.withValue (p : Api550bAudioProcessor K) (paramID : Params)
    (newValue : K) : Api550bAudioProcessor K :=
  { p with apvts := Function.update p.apvts paramID newValue }

/-- The four bands, in chain order. -/
inductive Band
  | low | lowMid | highMid | high
  deriving DecidableEq, Repr

/-- The frequency parameter of a band. -/
def Band.freqID : Band → Params
  | .low => Params.LOW_FREQ
  | .lowMid => Params.LM_FREQ
  | .highMid => Params.HM_FREQ
  | .high => Params.HIGH_FREQ

/-- The gain parameter of a band. -/
def Band.gainID : Band → Params
  | .low => Params.LOW_GAIN
  | .lowMid => Params.LM_GAIN
  | .highMid => Params.HM_GAIN
  | .high => Params.HIGH_GAIN

/-- The mute parameter of a band. -/
def Band.muteID : Band → Params
  | .low => Params.LOW_MUTE
  | .lowMid => Params.LM_MUTE
  | .highMid => Params.HM_MUTE
  | .high => Params.HIGH_MUTE

/-- The bypass parameter of a band. -/
def Band.bypassID : Band → Params
  | .low => Params.LOW_BYPASS
  | .lowMid => Params.LM_BYPASS
  | .highMid => Params.HM_BYPASS
  | .high => Params.HIGH_BYPASS

/-- The frequency table a band reads: `lowFreqValues` for Low and Low-Mid, `highFreqValues`
for High-Mid and High. -/
def Band.freqValues : Band → List K
  | .low => lowFreqValues
  | .lowMid => lowFreqValues
  | .highMid => highFreqValues
  | .high => highFreqValues

/-- The filter member of a band: `lowFilter`, `lowMidFilter`, `highMidFilter`, `highFilter`. -/
def Api550bAudioProcessor.filter (p : Api550bAudioProcessor K) : Band → IIRFilter K
  | .low => p.lowFilter
  | .lowMid => p.lowMidFilter
  | .highMid => p.highMidFilter
  | .high => p.highFilter

/-- The coefficient set `updateFilters` assigns to a band. -/
def designOf (lib : Library K) (impl : Impl K) (p : Api550bAudioProcessor K) (b : Band) :
    Coefficients K :=
  ((updateFilters lib impl p).2.filter b).coefficients

/-- The table frequency of a band in the words of the specification: the entry of the
band's frequency table at its frequency index, clamped into the table. -/
def specFrequency (apvts : Params → K) (b : Band) : K :=
  (Band.freqValues b).getD (min ⌊apvts b.freqID⌋₊ 6) 0

/-- The effective gain of a band in the words of the specification: 0 dB if muted, else the
entry of the gain table at the gain index, clamped into the table. -/
def specEffectiveGainDb (apvts : Params → K) (b : Band) : K :=
  if apvts b.muteID > 0.5 then 0 else (gainDbValues : List K).getD (min ⌊apvts b.gainID⌋₊ 8) 0

/-- The Q of a band in the words of the specification: 1.5 in fixed-Q mode, else
`clamp (1.0 + 0.2 * |effectiveGainDb|, 0.7, 2.2)`. -/
def specQ (apvts : Params → K) (b : Band) : K :=
  if apvts Params.Q_MODE > 0.5 then max 0.7 (min 2.2 (1.0 + 0.2 * |specEffectiveGainDb apvts b|))
  else 1.5

/-- A buffer `processBlock` does not turn away: at least one channel, and equal input and
output channel counts on the processor. -/
def wellFormed (p : Api550bAudioProcessor K) (buffer : AudioBuffer K) : Prop :=
  buffer.length ≠ 0 ∧ p.totalNumInputChannels = p.totalNumOutputChannels

instance (p : Api550bAudioProcessor K) (buffer : AudioBuffer K) : Decidable (wellFormed p buffer) :=
  inferInstanceAs (Decidable (_ ∧ _))

end Core

/-- A stand-in for the library routines over `ℚ`, used to evaluate the model at concrete
inputs; the theorems hold for every library. -/
def sampleLibrary : Library ℚ where
  decibelsToGain := fun dB => 1 + dB / 20
  tanh := fun y => y / (1 + |y|)
  iirProcess := fun _ state block => (state, block)
  iirReset := fun _ => [0, 0]


/-- A stereo unit impulse of four samples per channel. -/
def sampleBuffer : AudioBuffer ℚ := [[1, 0, 0, 0], [1, 0, 0, 0]]

/-- The processor as constructed, over `ℚ` with the stand-in library. -/
def sampleProcessor : Api550bAudioProcessor ℚ := Api550bAudioProcessor.construct sampleLibrary

/-- The constructed processor with all four bands bypassed and `SAT_DRIVE` at 0. -/
def bypassedProcessor : Api550bAudioProcessor ℚ :=
  ((((sampleProcessor.withValue Params.LOW_BYPASS 1).withValue Params.LM_BYPASS 1).withValue
    Params.HM_BYPASS 1).withValue Params.HIGH_BYPASS 1).withValue Params.SAT_DRIVE 0

/-- Instance B of a two-instance run: constructed with the default parameters
(`SAT_DRIVE` 2.0), after its first `processBlock` on the stereo impulse; the first
component is the static data that call leaves. -/
def instanceB : Impl ℚ × Api550bAudioProcessor ℚ × AudioBuffer ℚ :=
  processBlock sampleLibrary Impl.initial sampleProcessor sampleBuffer

/-- Instance A of the two-instance run: constructed like B, then `SAT_DRIVE` written to 0
and `updateFilters` run, on the static data B left. -/
def instanceA : Impl ℚ × Api550bAudioProcessor ℚ :=
  updateFilters sampleLibrary instanceB.1 (setParameter Params.SAT_DRIVE 0 sampleProcessor)

/-- The Q claimed for each entry of the gain table in proportional-Q mode. -/
def proportionalQTable {K : Type} [LinearOrderedField K] : List K :=
  [2.2, 2.2, 2.2, 1.6, 1.0, 1.6, 2.2, 2.2, 2.2]

section Chain

variable {K : Type} [LinearOrderedField K] [FloorRing K]

/-- The shelf flag a band reads, if it has one. -/
def Band.shelfID : Band → Option Params
  | .low => some Params.LOW_SHELF
  | .lowMid => none
  | .highMid => none
  | .high => some Params.HIGH_SHELF

/-- The bands whose `process` calls stand before a band's own in `processBlock`. -/
def Band.before : Band → List Band
  | .low => []
  | .lowMid => [.low]
  | .highMid => [.low, .lowMid]
  | .high => [.low, .lowMid, .highMid]

/-- The processor and static data with which `processBlock` runs its chain: those that
`if (parametersChanged) updateFilters ();` leaves. -/
def afterUpdate (lib : Library K) (impl : Impl K) (p : Api550bAudioProcessor K) :
    Impl K × Api550bAudioProcessor K :=
  if p.parametersChanged then updateFilters lib impl p else (impl, p)

/-- The filter chain in the words of the specification: the block after the sections of the
listed bands, taken in list order, where a band's section is applied to the block if and
only if the band's bypass parameter is off. -/
def runSections (lib : Library K) (p : Api550bAudioProcessor K) (bands : List Band)
    (buffer : AudioBuffer K) : AudioBuffer K :=
  bands.foldl
    (fun block b =>
      if p.apvts b.bypassID > 0.5 then block
      else (lib.iirProcess (p.filter b).coefficients (p.filter b).state block).2)
    buffer

/-- The states of one processor instance, with the static data, that the constructor
followed by calls of `prepareToPlay`, parameter writes that fire `parameterChanged`, and
calls of `processBlock` can produce, when no other instance runs in between. -/
inductive Reachable (lib : Library K) : Impl K → Api550bAudioProcessor K → Prop
  | construct : Reachable lib Impl.initial (Api550bAudioProcessor.construct lib)
  | prepareToPlay {impl : Impl K} {p : Api550bAudioProcessor K} (sampleRate : K)
      (samplesPerBlock : Nat) (h : Reachable lib impl p) :
      Reachable lib (prepareToPlay lib impl p sampleRate samplesPerBlock).1
        (prepareToPlay lib impl p sampleRate samplesPerBlock).2
  | setParameter {impl : Impl K} {p : Api550bAudioProcessor K} (paramID : Params)
      (newValue : K) (h : Reachable lib impl p) :
      Reachable lib impl (setParameter paramID newValue p)
  | processBlock {impl : Impl K} {p : Api550bAudioProcessor K} (buffer : AudioBuffer K)
      (h : Reachable lib impl p) :
      Reachable lib (processBlock lib impl p buffer).1 (processBlock lib impl p buffer).2.1

end Chain

/-! ## Auxiliary lemmas -/

theorem jmin_eq_min {α : Type} [LinearOrder α] (a b : α) : jmin a b = min a b := by
  unfold jmin
  split_ifs with h
  · exact (min_eq_right h.le).symm
  · exact (min_eq_left (not_lt.1 h)).symm

theorem jlimit_eq_clamp {α : Type} [LinearOrder α] (lo hi v : α) (h : lo ≤ hi) :
    jlimit lo hi v = max lo (min hi v) := by
  unfold jlimit
  split_ifs with h1 h2
  · rw [max_eq_left]; exact le_trans (min_le_right _ _) h1.le
  · rw [min_eq_left h2.le, max_eq_right h]
  · rw [min_eq_right (not_lt.1 h2), max_eq_right (not_lt.1 h1)]

theorem getParamValue_eq {K : Type} [LinearOrderedField K] [FloorRing K]
    (apvts : Params → K) (paramID : Params) (values : List K) (size : Nat) :
    getParamValue apvts paramID values size =
      values.getD (min ⌊apvts paramID⌋₊ (size - 1)) 0 := by
  simp only [getParamValue, getParamIndex, static_cast_size_t, jmin_eq_min]

theorem getElem?_eq_some_getD {α : Type} [Zero α] (l : List α) (n : Nat) (h : n < l.length) :
    l[n]? = some (l.getD n 0) := by
  simp [List.getD_eq_getElem?_getD, List.getElem?_eq_getElem h]

/-- The coefficient set `updateFilters` gives a band, written with the specification's
frequency, effective gain and Q. -/
theorem designOf_eq {K : Type} [LinearOrderedField K] [FloorRing K]
    (lib : Library K) (impl : Impl K) (p : Api550bAudioProcessor K) (b : Band) :
    designOf lib impl p b =
      if p.apvts b.bypassID > 0.5 then
        Coefficients.makeAllPass p.sampleRate (specFrequency p.apvts b)
      else if b = Band.low ∧ p.apvts Params.LOW_SHELF > 0.5 then
        Coefficients.makeLowShelf p.sampleRate (specFrequency p.apvts b)
          (specQ p.apvts b) (lib.decibelsToGain (specEffectiveGainDb p.apvts b))
      else if b = Band.high ∧ p.apvts Params.HIGH_SHELF > 0.5 then
        Coefficients.makeHighShelf p.sampleRate (specFrequency p.apvts b * 1.3)
          (specQ p.apvts b) (lib.decibelsToGain (specEffectiveGainDb p.apvts b))
      else
        Coefficients.makePeakFilter p.sampleRate (specFrequency p.apvts b)
          (specQ p.apvts b) (lib.decibelsToGain (specEffectiveGainDb p.apvts b)) := by
  have h : (0.7 : K) ≤ 2.2 := by norm_num
  cases b <;>
    simp only [designOf, updateFilters, Api550bAudioProcessor.filter, getParamValue_eq,
      specFrequency, specQ, specEffectiveGainDb, jlimit_eq_clamp _ _ _ h, Band.freqValues,
      Band.freqID, Band.muteID, Band.gainID, Band.bypassID, lowFreqValues, highFreqValues,
      gainDbValues, List.length_cons, List.length_nil, decide_eq_true_eq, Nat.reduceAdd,
      Nat.reduceSub, true_and, false_and, if_false, reduceCtorEq]

theorem specQ_bounds {K : Type} [LinearOrderedField K] [FloorRing K]
    (apvts : Params → K) (b : Band) :
    0.7 ≤ specQ apvts b ∧ specQ apvts b ≤ 2.2 := by
  unfold specQ
  split_ifs
  · exact ⟨le_max_left _ _, max_le (by norm_num) (min_le_left _ _)⟩
  · constructor <;> norm_num

theorem specFrequency_pos {K : Type} [LinearOrderedField K] [FloorRing K]
    (apvts : Params → K) (b : Band) : 0 < specFrequency apvts b := by
  have hle : min ⌊apvts b.freqID⌋₊ 6 ≤ 6 := min_le_right _ _
  unfold specFrequency
  generalize min ⌊apvts b.freqID⌋₊ 6 = n at hle
  cases b <;> interval_cases n <;>
    simp [Band.freqValues, lowFreqValues, highFreqValues]

theorem applyChanges_fields {K : Type} (changes : List (Params × K))
    (p : Api550bAudioProcessor K) :
    (applyChanges changes p).updateFiltersCalls = p.updateFiltersCalls
    ∧ (applyChanges changes p).totalNumInputChannels = p.totalNumInputChannels
    ∧ (applyChanges changes p).totalNumOutputChannels = p.totalNumOutputChannels
    ∧ (applyChanges changes p).parametersChanged =
        (p.parametersChanged || !changes.isEmpty) := by
  induction changes generalizing p with
  | nil => simp [applyChanges]
  | cons c cs ih =>
    have h := ih (setParameter c.1 c.2 p)
    simp only [applyChanges, List.foldl_cons] at h ⊢
    simpa [setParameter, parameterChanged] using h

theorem processBlock_wellFormed {K : Type} [LinearOrderedField K] [FloorRing K]
    (lib : Library K) (impl : Impl K) (p : Api550bAudioProcessor K)
    (buffer : AudioBuffer K) (h : wellFormed p buffer) :
    (processBlock lib impl p buffer).2.1.parametersChanged = false
    ∧ (processBlock lib impl p buffer).2.1.updateFiltersCalls =
        p.updateFiltersCalls + (if p.parametersChanged then 1 else 0)
    ∧ (processBlock lib impl p buffer).2.1.totalNumInputChannels = p.totalNumInputChannels
    ∧ (processBlock lib impl p buffer).2.1.totalNumOutputChannels =
        p.totalNumOutputChannels := by
  have hg : ¬ (buffer.length = 0 ∨ p.totalNumInputChannels ≠ p.totalNumOutputChannels) := by
    rintro (h0 | h1)
    · exact h.1 h0
    · exact h1 h.2
  simp only [processBlock, if_neg hg]
  cases hp : p.parametersChanged <;> simp [updateFilters, hp]

theorem sinh_le_mul_cosh {x : ℝ} (hx : 0 ≤ x) : Real.sinh x ≤ x * Real.cosh x := by
  have hmono : MonotoneOn (fun y : ℝ => y * Real.cosh y - Real.sinh y) (Set.Ici 0) := by
    refine monotoneOn_of_deriv_nonneg (convex_Ici _) ?_ ?_ ?_
    · exact ((continuous_id.mul Real.continuous_cosh).sub Real.continuous_sinh).continuousOn
    · exact ((differentiable_id.mul Real.differentiable_cosh).sub
        Real.differentiable_sinh).differentiableOn
    · intro y hy
      rw [interior_Ici, Set.mem_Ioi] at hy
      have hd : HasDerivAt (fun y : ℝ => y * Real.cosh y - Real.sinh y)
          (1 * Real.cosh y + y * Real.sinh y - Real.cosh y) y :=
        ((hasDerivAt_id y).mul (Real.hasDerivAt_cosh y)).sub (Real.hasDerivAt_sinh y)
      rw [hd.deriv]
      have hs : 0 ≤ Real.sinh y := Real.sinh_nonneg_iff.2 hy.le
      nlinarith [mul_nonneg hy.le hs]
  have h := hmono (Set.mem_Ici.2 le_rfl) (Set.mem_Ici.2 hx) hx
  simp only [zero_mul, Real.sinh_zero, sub_zero] at h
  linarith

theorem abs_tanh_le_abs (y : ℝ) : |Real.tanh y| ≤ |y| := by
  have key : ∀ z : ℝ, 0 ≤ z → |Real.tanh z| ≤ z := by
    intro z hz
    have hc : 0 < Real.cosh z := Real.cosh_pos z
    have hs : 0 ≤ Real.sinh z := Real.sinh_nonneg_iff.2 hz
    rw [Real.tanh_eq_sinh_div_cosh, abs_of_nonneg (div_nonneg hs hc.le), div_le_iff₀ hc]
    exact sinh_le_mul_cosh hz
  rcases le_total 0 y with h | h
  · rw [abs_of_nonneg h]; exact key y h
  · have := key (-y) (by linarith)
    rwa [Real.tanh_neg, abs_neg, ← abs_of_nonpos h] at this

theorem afterUpdate_fields {K : Type} [LinearOrderedField K] [FloorRing K]
    (lib : Library K) (impl : Impl K) (p : Api550bAudioProcessor K) :
    (afterUpdate lib impl p).2.apvts = p.apvts
    ∧ (afterUpdate lib impl p).2.sampleRate = p.sampleRate
    ∧ (afterUpdate lib impl p).2.parametersChanged = false
    ∧ (afterUpdate lib impl p).2.totalNumInputChannels = p.totalNumInputChannels
    ∧ (afterUpdate lib impl p).2.totalNumOutputChannels = p.totalNumOutputChannels
    ∧ (∀ b : Band, ((afterUpdate lib impl p).2.filter b).state = (p.filter b).state)
    ∧ (∀ b : Band, ((afterUpdate lib impl p).2.filter b).coefficients =
        if p.parametersChanged then designOf lib impl p b else (p.filter b).coefficients) := by
  unfold afterUpdate
  cases hp : p.parametersChanged
  · simp [hp]
  · refine ⟨rfl, rfl, rfl, rfl, rfl, ?_, ?_⟩
    · intro b; cases b <;> rfl
    · intro b; cases b <;> rfl

theorem processBlock_eq_chain {K : Type} [LinearOrderedField K] [FloorRing K]
    (lib : Library K) (impl : Impl K) (p : Api550bAudioProcessor K)
    (buffer : AudioBuffer K) (h : wellFormed p buffer) :
    (processBlock lib impl p buffer).1 = (afterUpdate lib impl p).1
    ∧ (processBlock lib impl p buffer).2.1.apvts = p.apvts
    ∧ (processBlock lib impl p buffer).2.1.sampleRate = p.sampleRate
    ∧ (processBlock lib impl p buffer).2.1.saturationFunctionToUse =
        (afterUpdate lib impl p).2.saturationFunctionToUse
    ∧ (∀ b : Band, (processBlock lib impl p buffer).2.1.filter b =
        if p.apvts b.bypassID > 0.5 then (afterUpdate lib impl p).2.filter b
        else
          { coefficients := ((afterUpdate lib impl p).2.filter b).coefficients
            state := (lib.iirProcess ((afterUpdate lib impl p).2.filter b).coefficients
              ((afterUpdate lib impl p).2.filter b).state
              (runSections lib (afterUpdate lib impl p).2 b.before buffer)).1 })
    ∧ (processBlock lib impl p buffer).2.2 =
        waveShaperProcess lib (afterUpdate lib impl p).1
          (afterUpdate lib impl p).2.saturationFunctionToUse
          (runSections lib (afterUpdate lib impl p).2
            [Band.low, Band.lowMid, Band.highMid, Band.high] buffer) := by
  have hg : ¬ (buffer.length = 0 ∨ p.totalNumInputChannels ≠ p.totalNumOutputChannels) := by
    rintro (h0 | h1)
    · exact h.1 h0
    · exact h1 h.2
  obtain ⟨ha, hsr, -⟩ := afterUpdate_fields lib impl p
  have hs : (if p.parametersChanged = true then updateFilters lib impl p else (impl, p)) =
    afterUpdate lib impl p := rfl
  refine ⟨?_, ?_, ?_, ?_, ?_, ?_⟩
  · simp only [processBlock, if_neg hg, hs]
  · simp only [processBlock, if_neg hg, hs, ha]
  · simp only [processBlock, if_neg hg, hs, hsr]
  · simp only [processBlock, if_neg hg, hs]
  · intro b
    simp only [processBlock, if_neg hg, hs]
    generalize afterUpdate lib impl p = s at ha ⊢
    by_cases h1 : p.apvts Params.LOW_BYPASS > 0.5 <;>
    by_cases h2 : p.apvts Params.LM_BYPASS > 0.5 <;>
    by_cases h3 : p.apvts Params.HM_BYPASS > 0.5 <;>
    by_cases h4 : p.apvts Params.HIGH_BYPASS > 0.5 <;>
    cases b <;>
      simp only [Api550bAudioProcessor.filter, Band.bypassID, Band.before, runSections,
        List.foldl_cons, List.foldl_nil, IIRFilter.process, ha, h1, h2, h3, h4, if_true,
        if_false, not_true_eq_false, not_false_eq_true]
  · simp only [processBlock, if_neg hg, hs]
    generalize afterUpdate lib impl p = s at ha ⊢
    by_cases h1 : p.apvts Params.LOW_BYPASS > 0.5 <;>
    by_cases h2 : p.apvts Params.LM_BYPASS > 0.5 <;>
    by_cases h3 : p.apvts Params.HM_BYPASS > 0.5 <;>
    by_cases h4 : p.apvts Params.HIGH_BYPASS > 0.5 <;>
      simp only [Api550bAudioProcessor.filter, Band.bypassID, runSections,
        List.foldl_cons, List.foldl_nil, IIRFilter.process, ha, h1, h2, h3, h4, if_true,
        if_false, not_true_eq_false, not_false_eq_true]

theorem designOf_congr {K : Type} [LinearOrderedField K] [FloorRing K]
    (lib : Library K) (impl impl' : Impl K) (p p' : Api550bAudioProcessor K) (b : Band)
    (ha : p.apvts = p'.apvts) (hs : p.sampleRate = p'.sampleRate) :
    designOf lib impl p b = designOf lib impl' p' b := by
  rw [designOf_eq, designOf_eq, ha, hs]

theorem afterUpdate_consistent {K : Type} [LinearOrderedField K] [FloorRing K]
    (lib : Library K) (impl : Impl K) (p : Api550bAudioProcessor K)
    (h : p.parametersChanged = false →
      (∀ b : Band, (p.filter b).coefficients = designOf lib impl p b)
      ∧ impl.saturationDrive = p.apvts Params.SAT_DRIVE
      ∧ p.saturationFunctionToUse = some WaveShaperFunction.applySaturation) :
    (∀ b : Band, ((afterUpdate lib impl p).2.filter b).coefficients = designOf lib impl p b)
    ∧ (afterUpdate lib impl p).1.saturationDrive = p.apvts Params.SAT_DRIVE
    ∧ (afterUpdate lib impl p).2.saturationFunctionToUse =
        some WaveShaperFunction.applySaturation := by
  unfold afterUpdate
  cases hp : p.parametersChanged
  · simpa [hp] using h hp
  · refine ⟨?_, rfl, rfl⟩
    intro b
    rfl

theorem updateFilters_consistent {K : Type} [LinearOrderedField K] [FloorRing K]
    (lib : Library K) (impl : Impl K) (p : Api550bAudioProcessor K) (b : Band) :
    ((updateFilters lib impl p).2.filter b).coefficients =
      designOf lib (updateFilters lib impl p).1 (updateFilters lib impl p).2 b :=
  designOf_congr lib impl (updateFilters lib impl p).1 p (updateFilters lib impl p).2 b rfl rfl

theorem reachable_consistent {K : Type} [LinearOrderedField K] [FloorRing K]
    (lib : Library K) (impl : Impl K) (p : Api550bAudioProcessor K)
    (hr : Reachable lib impl p) :
    p.parametersChanged = false →
      (∀ b : Band, (p.filter b).coefficients = designOf lib impl p b)
      ∧ impl.saturationDrive = p.apvts Params.SAT_DRIVE
      ∧ p.saturationFunctionToUse = some WaveShaperFunction.applySaturation := by
  induction hr with
  | construct => intro h; simp [Api550bAudioProcessor.construct] at h
  | @prepareToPlay impl p sampleRate samplesPerBlock _ _ =>
    intro _
    refine ⟨?_, rfl, rfl⟩
    intro b
    exact updateFilters_consistent lib impl _ b
  | setParameter paramID newValue _ _ =>
    intro h
    simp [setParameter, parameterChanged] at h
  | @processBlock impl p buffer _ ih =>
    intro hflag
    by_cases hw : wellFormed p buffer
    · obtain ⟨h1, ha, hsr, hf, hb, -⟩ := processBlock_eq_chain lib impl p buffer hw
      obtain ⟨c1, c2, c3⟩ := afterUpdate_consistent lib impl p ih
      refine ⟨?_, ?_, ?_⟩
      · intro b
        rw [hb b, designOf_congr lib _ impl _ p b ha hsr, ← c1 b]
        split_ifs <;> rfl
      · rw [h1, ha, c2]
      · rw [hf, c3]
    · have hg : buffer.length = 0 ∨ p.totalNumInputChannels ≠ p.totalNumOutputChannels := by
        by_contra hn
        push_neg at hn
        exact hw ⟨hn.1, hn.2⟩
      have he : processBlock lib impl p buffer = (impl, p, buffer) := by
        simp only [processBlock, if_pos hg]
      rw [he] at hflag ⊢
      exact ih hflag

/-! ## Band coefficient calculator -/

/-- C1. Topology selection of `updateFilters`, for every parameter store: a band whose bypass
flag is set gets the all-pass design at the band's table frequency; otherwise the Low band
with `LOW_SHELF` set gets a low-shelf and the High band with `HIGH_SHELF` set a high-shelf;
otherwise the design is a peak filter. Low-Mid and High-Mid are all-pass when bypassed and
peak otherwise, whatever the two shelf flags hold. -/
theorem updateFilters_topology_priority {K : Type} [LinearOrderedField K] [FloorRing K]
    (lib : Library K) (impl : Impl K) (p : Api550bAudioProcessor K) (b : Band) :
    (designOf lib impl p b).topology =
      (if p.apvts b.bypassID > 0.5 then Topology.allPass
       else if b = Band.low ∧ p.apvts Params.LOW_SHELF > 0.5 then Topology.lowShelf
       else if b = Band.high ∧ p.apvts Params.HIGH_SHELF > 0.5 then Topology.highShelf
       else Topology.peak)
    ∧ (if p.apvts b.bypassID > 0.5 then
        designOf lib impl p b = Coefficients.makeAllPass p.sampleRate (specFrequency p.apvts b)
       else (designOf lib impl p b).topology ≠ Topology.allPass)
    ∧ (designOf lib impl p Band.lowMid).topology =
        (if p.apvts Params.LM_BYPASS > 0.5 then Topology.allPass else Topology.peak)
    ∧ (designOf lib impl p Band.highMid).topology =
        (if p.apvts Params.HM_BYPASS > 0.5 then Topology.allPass else Topology.peak) := by
  refine ⟨?_, ?_, ?_, ?_⟩
  · rw [designOf_eq]; split_ifs <;> rfl
  · rw [designOf_eq]; split_ifs <;> simp [Coefficients.topology]
  · rw [designOf_eq]; simp only [Band.bypassID]; split_ifs <;> simp_all [Coefficients.topology]
  · rw [designOf_eq]; simp only [Band.bypassID]; split_ifs <;> simp_all [Coefficients.topology]

/-- C2. The Q that `updateFilters` hands to a band's filter design (none goes to the
all-pass design of a bypassed band) is 1.5 when `Q_MODE` is off and
`clamp (1.0 + 0.2 * |effectiveGainDb|, 0.7, 2.2)` when it is on, with the effective gain
taken after mute; in every case it lies in `[0.7, 2.2]`. -/
theorem updateFilters_Q_range {K : Type} [LinearOrderedField K] [FloorRing K]
    (lib : Library K) (impl : Impl K) (p : Api550bAudioProcessor K) (b : Band) :
    (designOf lib impl p b).Q =
      (if p.apvts b.bypassID > 0.5 then none
       else some (if p.apvts Params.Q_MODE > 0.5 then
          max 0.7 (min 2.2 (1.0 + 0.2 * |specEffectiveGainDb p.apvts b|)) else 1.5))
    ∧ (∀ q ∈ (designOf lib impl p b).Q, 0.7 ≤ q ∧ q ≤ 2.2)
    ∧ (0.7 ≤ specQ p.apvts b ∧ specQ p.apvts b ≤ 2.2) := by
  have hQ : (designOf lib impl p b).Q =
      (if p.apvts b.bypassID > 0.5 then none else some (specQ p.apvts b)) := by
    rw [designOf_eq]; split_ifs <;> rfl
  refine ⟨?_, ?_, specQ_bounds _ _⟩
  · rw [hQ]; rfl
  · intro q hq
    rw [hQ] at hq
    split_ifs at hq
    · cases hq
    · cases hq; exact specQ_bounds _ _

/-- C3. Mute forces the effective gain to 0 dB: with the band's mute flag on (`m > 0.5`) the
design of the band is the same for every stored gain value `v`, and it is the design
obtained with mute off and gain index 4; with bypass and both shelf flags off and gain
index 8 it is the peak filter of gain `decibelsToGain 0` at the band's table frequency. -/
theorem updateFilters_mute_forces_zero_gain {K : Type} [LinearOrderedField K] [FloorRing K]
    (lib : Library K) (impl : Impl K) (p : Api550bAudioProcessor K) (b : Band)
    (m v : K) (hm : m > 0.5) :
    (designOf lib impl ((p.withValue b.muteID m).withValue b.gainID v) b =
      designOf lib impl ((p.withValue b.muteID 0).withValue b.gainID 4) b)
    ∧ (∀ w : K,
        designOf lib impl ((p.withValue b.muteID m).withValue b.gainID v) b =
        designOf lib impl ((p.withValue b.muteID m).withValue b.gainID w) b)
    ∧ designOf lib impl
        (((((p.withValue Params.LOW_SHELF 0).withValue Params.HIGH_SHELF 0).withValue
          b.bypassID 0).withValue b.muteID m).withValue b.gainID 8) b =
      Coefficients.makePeakFilter p.sampleRate (specFrequency p.apvts b)
        (if p.apvts Params.Q_MODE > 0.5 then 1.0 else 1.5) (lib.decibelsToGain 0) := by
  have h0 : ¬ ((0 : K) > 0.5) := by norm_num
  have h4 : ⌊(4 : K)⌋₊ = 4 := Nat.floor_ofNat 4
  have hc : max (0.7 : K) (min 2.2 1.0) = 1.0 := by norm_num
  refine ⟨?_, ?_, ?_⟩
  · cases b <;>
      simp [designOf_eq, specFrequency, specQ, specEffectiveGainDb, Band.muteID, Band.gainID,
        Band.bypassID, Band.freqID, Function.update_apply, hm, h0, h4, gainDbValues,
        Api550bAudioProcessor.withValue]
  · intro w
    cases b <;>
      simp [designOf_eq, specFrequency, specQ, specEffectiveGainDb, Band.muteID, Band.gainID,
        Band.bypassID, Band.freqID, Function.update_apply, hm,
        Api550bAudioProcessor.withValue]
  · cases b <;>
      simp [designOf_eq, specFrequency, specQ, specEffectiveGainDb, Band.muteID, Band.gainID,
        Band.bypassID, Band.freqID, Function.update_apply, hm, h0, hc,
        Api550bAudioProcessor.withValue]

/-- The Low band of the constructed processor, muted with gain index 8, has the design it
has unmuted with gain index 4. -/
theorem updateFilters_mute_forces_zero_gain_witness :
    (1 : ℚ) > 0.5
    ∧ designOf sampleLibrary Impl.initial
        ((sampleProcessor.withValue Params.LOW_MUTE 1).withValue Params.LOW_GAIN 8) Band.low =
      designOf sampleLibrary Impl.initial
        ((sampleProcessor.withValue Params.LOW_MUTE 0).withValue Params.LOW_GAIN 4) Band.low :=
  ⟨by norm_num,
   (updateFilters_mute_forces_zero_gain sampleLibrary Impl.initial sampleProcessor Band.low
      1 8 (by norm_num)).1⟩

/-- C4. The lookup `getParamValue` stays inside its table: for a raw index value `i` that is
a `size_t` (`i < 2 ^ 64`) it reads position `min i (size - 1)`, which exists in each of the
three tables, and returns the entry there; so a frequency index of 6 or more gives every band
the design of index 6, and a gain index of 8 or more the design of index 8. -/
theorem getParamValue_index_clamped {K : Type} [LinearOrderedField K] [FloorRing K]
    (apvts : Params → K) (paramID : Params) (i : Nat) (_hi : i < 2 ^ 64) :
    (getParamIndex (Function.update apvts paramID (i : K)) paramID
        (lowFreqValues : List K).length = min i 6
      ∧ (lowFreqValues : List K)[min i 6]? =
        some (getParamValue (Function.update apvts paramID (i : K)) paramID
          lowFreqValues (lowFreqValues : List K).length))
    ∧ (getParamIndex (Function.update apvts paramID (i : K)) paramID
        (highFreqValues : List K).length = min i 6
      ∧ (highFreqValues : List K)[min i 6]? =
        some (getParamValue (Function.update apvts paramID (i : K)) paramID
          highFreqValues (highFreqValues : List K).length))
    ∧ (getParamIndex (Function.update apvts paramID (i : K)) paramID
        (gainDbValues : List K).length = min i 8
      ∧ (gainDbValues : List K)[min i 8]? =
        some (getParamValue (Function.update apvts paramID (i : K)) paramID
          gainDbValues (gainDbValues : List K).length))
    ∧ (∀ (lib : Library K) (impl : Impl K) (p : Api550bAudioProcessor K) (b b' : Band),
        designOf lib impl (p.withValue b.freqID ((max i 6 : Nat) : K)) b' =
          designOf lib impl (p.withValue b.freqID ((6 : Nat) : K)) b'
        ∧ designOf lib impl (p.withValue b.gainID ((max i 8 : Nat) : K)) b' =
          designOf lib impl (p.withValue b.gainID ((8 : Nat) : K)) b') := by
  have hidx : ∀ size : Nat, getParamIndex (Function.update apvts paramID (i : K)) paramID size
      = min i (size - 1) := by
    intro size
    simp only [getParamIndex, static_cast_size_t, jmin_eq_min, Function.update_same,
      Nat.floor_natCast]
  have hl : (lowFreqValues : List K).length = 7 := rfl
  have hh : (highFreqValues : List K).length = 7 := rfl
  have hg : (gainDbValues : List K).length = 9 := rfl
  refine ⟨⟨?_, ?_⟩, ⟨?_, ?_⟩, ⟨?_, ?_⟩, ?_⟩
  · rw [hidx, hl]
  · rw [getParamValue, hidx, hl]
    exact getElem?_eq_some_getD _ _ (by rw [hl]; omega)
  · rw [hidx, hh]
  · rw [getParamValue, hidx, hh]
    exact getElem?_eq_some_getD _ _ (by rw [hh]; omega)
  · rw [hidx, hg]
  · rw [getParamValue, hidx, hg]
    exact getElem?_eq_some_getD _ _ (by rw [hg]; omega)
  · intro lib impl p b b'
    have h6 : min (max i 6) 6 = 6 := by omega
    have h8 : min (max i 8) 8 = 8 := by omega
    constructor <;> cases b <;> cases b' <;>
      simp only [designOf_eq, specFrequency, specQ, specEffectiveGainDb, Band.muteID,
        Band.gainID, Band.bypassID, Band.freqID, Function.update_apply,
        Api550bAudioProcessor.withValue, Nat.floor_natCast, h6, h8, min_self, reduceCtorEq,
        if_true, if_false]

/-- The frequency index 9, past the seven entries of the low table, reads the last entry,
2400 Hz, and gives the Low band the design of index 6. -/
theorem getParamValue_index_clamped_witness :
    (9 : Nat) < 2 ^ 64
    ∧ (lowFreqValues : List ℚ)[min 9 6]? =
        some (getParamValue (Function.update createParameterLayout Params.LOW_FREQ ((9 : Nat) : ℚ))
          Params.LOW_FREQ lowFreqValues (lowFreqValues : List ℚ).length)
    ∧ designOf sampleLibrary Impl.initial
        (sampleProcessor.withValue Params.LOW_FREQ ((max 9 6 : Nat) : ℚ)) Band.low =
      designOf sampleLibrary Impl.initial
        (sampleProcessor.withValue Params.LOW_FREQ ((6 : Nat) : ℚ)) Band.low :=
  ⟨by norm_num,
   (getParamValue_index_clamped createParameterLayout Params.LOW_FREQ 9 (by norm_num)).1.2,
   ((getParamValue_index_clamped createParameterLayout Params.LOW_FREQ 9 (by norm_num)).2.2.2
      sampleLibrary Impl.initial sampleProcessor Band.low Band.low).1⟩

/-- C5. The High band is designed at the table frequency times 1.3 exactly when it is not
bypassed and `HIGH_SHELF` is set, and at the table frequency itself in the peak and the
all-pass branch; the high-shelf and the peak design of one frequency index therefore differ
in frequency, and the Low, Low-Mid and High-Mid designs always use the table frequency. -/
theorem updateFilters_high_shelf_frequency {K : Type} [LinearOrderedField K] [FloorRing K]
    (lib : Library K) (impl : Impl K) (p : Api550bAudioProcessor K) :
    (designOf lib impl p Band.high).frequency =
      some (if ¬ (p.apvts Params.HIGH_BYPASS > 0.5) ∧ p.apvts Params.HIGH_SHELF > 0.5 then
        specFrequency p.apvts Band.high * 1.3 else specFrequency p.apvts Band.high)
    ∧ ((designOf lib impl p Band.high).frequency = some (specFrequency p.apvts Band.high * 1.3)
        ↔ (¬ (p.apvts Params.HIGH_BYPASS > 0.5) ∧ p.apvts Params.HIGH_SHELF > 0.5))
    ∧ (designOf lib impl
          ((p.withValue Params.HIGH_BYPASS 0).withValue Params.HIGH_SHELF 1) Band.high).frequency ≠
        (designOf lib impl
          ((p.withValue Params.HIGH_BYPASS 0).withValue Params.HIGH_SHELF 0) Band.high).frequency
    ∧ (designOf lib impl p Band.low).frequency = some (specFrequency p.apvts Band.low)
    ∧ (designOf lib impl p Band.lowMid).frequency = some (specFrequency p.apvts Band.lowMid)
    ∧ (designOf lib impl p Band.highMid).frequency =
        some (specFrequency p.apvts Band.highMid) := by
  have hne : ∀ a : Params → K, specFrequency a Band.high * 1.3 ≠ specFrequency a Band.high := by
    intro a h
    have hpos := specFrequency_pos a Band.high
    have : specFrequency a Band.high * 1.3 = specFrequency a Band.high * 1 := by rw [h, mul_one]
    have h13 := mul_left_cancel₀ (ne_of_gt hpos) this
    norm_num at h13
  have h0 : ¬ ((0 : K) > 0.5) := by norm_num
  have h1 : (1 : K) > 0.5 := by norm_num
  have hfreq : (designOf lib impl p Band.high).frequency =
      some (if ¬ (p.apvts Params.HIGH_BYPASS > 0.5) ∧ p.apvts Params.HIGH_SHELF > 0.5 then
        specFrequency p.apvts Band.high * 1.3 else specFrequency p.apvts Band.high) := by
    rw [designOf_eq]
    simp only [Band.bypassID, reduceCtorEq, false_and, if_false, true_and]
    split_ifs <;> simp_all [Coefficients.frequency]
  refine ⟨hfreq, ?_, ?_, ?_, ?_, ?_⟩
  · rw [hfreq]
    split_ifs with h
    · simp [h]
    · simp only [Option.some.injEq, h, iff_false]
      exact fun e => hne _ e.symm
  · have hs : specFrequency (Function.update (Function.update p.apvts Params.HIGH_BYPASS 0)
        Params.HIGH_SHELF 1) Band.high = specFrequency (Function.update (Function.update p.apvts
        Params.HIGH_BYPASS 0) Params.HIGH_SHELF 0) Band.high := by
      simp [specFrequency, Band.freqID, Function.update_apply]
    simp only [designOf_eq, Band.bypassID, Api550bAudioProcessor.withValue,
      Function.update_apply, reduceCtorEq, if_true, if_false, h0, h1, false_and, true_and,
      Coefficients.frequency, hs]
    simp only [ne_eq, Option.some.injEq]
    exact hne _
  · rw [designOf_eq]
    simp only [Band.bypassID, reduceCtorEq, false_and, if_false, true_and]
    split_ifs <;> rfl
  · rw [designOf_eq]
    simp only [Band.bypassID, reduceCtorEq, false_and, if_false, true_and]
    split_ifs <;> rfl
  · rw [designOf_eq]
    simp only [Band.bypassID, reduceCtorEq, false_and, if_false, true_and]
    split_ifs <;> rfl

/-! ## Saturation stage -/

/-- C6. The function `applySaturation` returns `tanh (drive * x) / drive` when the drive is
above 0.001 and `x` otherwise; at drive 0, and at every drive of at most 0.001, it is the
identity on every input, whatever `tanh` is, so no quotient by the drive enters the result. -/
theorem applySaturation_spec {K : Type} [LinearOrderedField K] (tanh : K → K) (d x : K) :
    applySaturation tanh d x = (if d > 0.001 then tanh (d * x) / d else x)
    ∧ applySaturation tanh 0 x = x
    ∧ (∀ e : K, e ≤ 0.001 → ∀ t : K → K, applySaturation t e x = x) := by
  refine ⟨rfl, ?_, ?_⟩
  · have h : ¬ ((0 : K) > 0.001) := by norm_num
    simp only [applySaturation, if_neg h]
  · intro e he t
    simp [applySaturation, not_lt.2 he]

/-- C7. Saturation is compressive: over the reals with the real `tanh`, for every drive
above 0 the magnitude of `applySaturation x` is at most the magnitude of `x`, for every
input `x`, hence for every input of magnitude above 0.5. -/
theorem applySaturation_compressive (d x : ℝ) (hd : 0 < d) :
    |applySaturation Real.tanh d x| ≤ |x| := by
  unfold applySaturation
  split_ifs with h
  · rw [abs_div, abs_of_pos hd, div_le_iff₀ hd]
    calc |Real.tanh (d * x)| ≤ |d * x| := abs_tanh_le_abs _
      _ = |x| * d := by rw [abs_mul, abs_of_pos hd, mul_comm]
  · exact le_rfl

/-- At drive 2 the input 0.75, of magnitude above 0.5, is not enlarged. -/
theorem applySaturation_compressive_witness :
    (0 : ℝ) < 2 ∧ (0.5 : ℝ) < |0.75| ∧ |applySaturation Real.tanh 2 0.75| ≤ |(0.75 : ℝ)| :=
  ⟨by norm_num, by norm_num [abs_of_pos], applySaturation_compressive 2 0.75 (by norm_num)⟩

/-! ## Update scheduler and block processing -/

/-- C8. Dirty-flag debouncing: after a `processBlock` on a well-formed buffer, any run of
`N ≥ 1` parameter changes, each firing `parameterChanged`, makes the next `processBlock` on a
well-formed buffer call `updateFilters` exactly once; with no change in between it calls
`updateFilters` zero times. -/
theorem processBlock_debounce {K : Type} [LinearOrderedField K] [FloorRing K]
    (lib : Library K) (impl : Impl K) (p : Api550bAudioProcessor K)
    (buffer1 buffer2 : AudioBuffer K) (changes : List (Params × K))
    (h1 : wellFormed p buffer1) (h2 : wellFormed p buffer2) (hN : 1 ≤ changes.length) :
    (processBlock lib (processBlock lib impl p buffer1).1
        (applyChanges changes (processBlock lib impl p buffer1).2.1)
        buffer2).2.1.updateFiltersCalls
      = (processBlock lib impl p buffer1).2.1.updateFiltersCalls + 1
    ∧ (processBlock lib (processBlock lib impl p buffer1).1
        (processBlock lib impl p buffer1).2.1 buffer2).2.1.updateFiltersCalls
      = (processBlock lib impl p buffer1).2.1.updateFiltersCalls := by
  obtain ⟨hflag, -, hin, hout⟩ := processBlock_wellFormed lib impl p buffer1 h1
  obtain ⟨hc, hcin, hcout, hcflag⟩ :=
    applyChanges_fields changes (processBlock lib impl p buffer1).2.1
  have hne : changes.isEmpty = false := by
    cases changes with
    | nil => simp at hN
    | cons c cs => rfl
  have hw1 : wellFormed (processBlock lib impl p buffer1).2.1 buffer2 :=
    ⟨h2.1, by rw [hin, hout]; exact h2.2⟩
  have hw2 : wellFormed (applyChanges changes (processBlock lib impl p buffer1).2.1) buffer2 :=
    ⟨h2.1, by rw [hcin, hcout, hin, hout]; exact h2.2⟩
  constructor
  · rw [(processBlock_wellFormed lib _ _ buffer2 hw2).2.1, hc, hcflag, hne]
    simp
  · rw [(processBlock_wellFormed lib _ _ buffer2 hw1).2.1, hflag]
    simp

/-- Three parameter changes between two blocks of the constructed processor cost one
recomputation. -/
theorem processBlock_debounce_witness :
    wellFormed sampleProcessor sampleBuffer
    ∧ 1 ≤ [(Params.LOW_GAIN, (7 : ℚ)), (Params.LOW_GAIN, 8), (Params.Q_MODE, 1)].length
    ∧ (processBlock sampleLibrary (processBlock sampleLibrary Impl.initial sampleProcessor
          sampleBuffer).1
        (applyChanges [(Params.LOW_GAIN, (7 : ℚ)), (Params.LOW_GAIN, 8), (Params.Q_MODE, 1)]
          (processBlock sampleLibrary Impl.initial sampleProcessor sampleBuffer).2.1)
        sampleBuffer).2.1.updateFiltersCalls
      = (processBlock sampleLibrary Impl.initial sampleProcessor
          sampleBuffer).2.1.updateFiltersCalls + 1 :=
  ⟨by decide, by decide,
   (processBlock_debounce sampleLibrary Impl.initial sampleProcessor sampleBuffer sampleBuffer
      [(Params.LOW_GAIN, (7 : ℚ)), (Params.LOW_GAIN, 8), (Params.Q_MODE, 1)]
      (by decide) (by decide) (by decide)).1⟩

/-- C9, as the code has it. If `parametersChanged` is set when `processBlock` is called on a
well-formed buffer (at least one channel, equal input and output channel counts), the call runs
`updateFilters` once: the flag is clear when it returns, each of the four bands holds the
design computed from the current parameters, and the drive is the current `SAT_DRIVE`. -/
theorem processBlock_recomputes_when_dirty {K : Type} [LinearOrderedField K] [FloorRing K]
    (lib : Library K) (impl : Impl K) (p : Api550bAudioProcessor K)
    (buffer : AudioBuffer K) (hw : wellFormed p buffer) (hd : p.parametersChanged = true) :
    (processBlock lib impl p buffer).2.1.parametersChanged = false
    ∧ (processBlock lib impl p buffer).2.1.updateFiltersCalls = p.updateFiltersCalls + 1
    ∧ (∀ b : Band, ((processBlock lib impl p buffer).2.1.filter b).coefficients =
        designOf lib impl p b)
    ∧ (processBlock lib impl p buffer).1.saturationDrive = p.apvts Params.SAT_DRIVE := by
  have hg : ¬ (buffer.length = 0 ∨ p.totalNumInputChannels ≠ p.totalNumOutputChannels) := by
    rintro (h0 | h1)
    · exact hw.1 h0
    · exact h1 hw.2
  refine ⟨?_, ?_, ?_, ?_⟩
  · simp only [processBlock, if_neg hg, hd]
    simp [updateFilters]
  · simp only [processBlock, if_neg hg, hd]
    simp [updateFilters]
  · intro b
    cases b <;>
      simp only [processBlock, if_neg hg, hd, if_true, designOf, Api550bAudioProcessor.filter,
        IIRFilter.process] <;>
      split_ifs <;> rfl
  · simp only [processBlock, if_neg hg, hd]
    simp [updateFilters]

/-- The constructed processor is dirty, and its first block on a stereo buffer leaves it
clean. -/
theorem processBlock_recomputes_when_dirty_witness :
    wellFormed sampleProcessor sampleBuffer
    ∧ sampleProcessor.parametersChanged = true
    ∧ (processBlock sampleLibrary Impl.initial sampleProcessor
        sampleBuffer).2.1.parametersChanged = false :=
  ⟨by decide, rfl,
   (processBlock_recomputes_when_dirty sampleLibrary Impl.initial sampleProcessor sampleBuffer
      (by decide) rfl).1⟩

/-- C9 fails for a buffer without channels: the constructed processor is dirty, and after
`processBlock` on the empty buffer it is still dirty, `updateFilters` has not run and the
Low band still holds the coefficients it was constructed with. -/
theorem processBlock_dirty_stays_dirty_on_empty_buffer :
    sampleProcessor.parametersChanged = true
    ∧ (processBlock sampleLibrary Impl.initial sampleProcessor []).2.1.parametersChanged = true
    ∧ (processBlock sampleLibrary Impl.initial sampleProcessor []).2.1.updateFiltersCalls = 0
    ∧ (processBlock sampleLibrary Impl.initial sampleProcessor []).2.1.lowFilter.coefficients
        = Coefficients.firstOrder 1 0 1 0 := by
  refine ⟨rfl, ?_, ?_, ?_⟩ <;>
    simp [processBlock, sampleProcessor, Api550bAudioProcessor.construct]

/-- C10. On a buffer with zero channels, or when the input and output channel counts of the
processor differ, `processBlock` returns the static data, the whole processor state (every
band's coefficients and filter history, the dirty flag) and every sample of the buffer
unchanged. -/
theorem processBlock_malformed_noop {K : Type} [LinearOrderedField K] [FloorRing K]
    (lib : Library K) (impl : Impl K) (p : Api550bAudioProcessor K) (buffer : AudioBuffer K)
    (h : buffer.length = 0 ∨ p.totalNumInputChannels ≠ p.totalNumOutputChannels) :
    processBlock lib impl p buffer = (impl, p, buffer) := by
  simp only [processBlock, if_pos h]

/-- A processor with two input channels and one output channel returns a stereo buffer
untouched. -/
theorem processBlock_malformed_noop_witness :
    ((sampleBuffer.length = 0 ∨
        ({ sampleProcessor with totalNumOutputChannels := 1 }).totalNumInputChannels ≠
        ({ sampleProcessor with totalNumOutputChannels := 1 }).totalNumOutputChannels)
    ∧ processBlock sampleLibrary Impl.initial
        { sampleProcessor with totalNumOutputChannels := 1 } sampleBuffer
      = (Impl.initial, { sampleProcessor with totalNumOutputChannels := 1 }, sampleBuffer)) :=
  ⟨by decide,
   processBlock_malformed_noop sampleLibrary Impl.initial
     { sampleProcessor with totalNumOutputChannels := 1 } sampleBuffer (by decide)⟩

/-! ## Filter chain, instances and reachable states -/

/-- C11. On a well-formed buffer `processBlock` returns the block that the sections of Low,
Low-Mid, High-Mid and High leave, taken in this order and each run if and only if its bypass
parameter is off, with `applySaturation` then applied to every sample; a band's filter
history is advanced exactly when its section runs. With all four bands bypassed every output
sample is `applySaturation` of the input sample, and with a drive of at most 0.001 the
buffer, for one a unit impulse, comes back unchanged. (The processor has its dirty flag set
or its wave-shaper function assigned, as every constructed processor has.) -/
theorem processBlock_chain_order {K : Type} [LinearOrderedField K] [FloorRing K]
    (lib : Library K) (impl : Impl K) (p : Api550bAudioProcessor K) (buffer : AudioBuffer K)
    (hw : wellFormed p buffer)
    (hf : p.parametersChanged = true ∨
      p.saturationFunctionToUse = some WaveShaperFunction.applySaturation) :
    (processBlock lib impl p buffer).2.2 =
      (runSections lib (afterUpdate lib impl p).2
        [Band.low, Band.lowMid, Band.highMid, Band.high] buffer).map
        (List.map (applySaturation lib.tanh (processBlock lib impl p buffer).1.saturationDrive))
    ∧ (∀ b : Band, (processBlock lib impl p buffer).2.1.filter b =
        if p.apvts b.bypassID > 0.5 then (afterUpdate lib impl p).2.filter b
        else
          { coefficients := ((afterUpdate lib impl p).2.filter b).coefficients
            state := (lib.iirProcess ((afterUpdate lib impl p).2.filter b).coefficients
              ((afterUpdate lib impl p).2.filter b).state
              (runSections lib (afterUpdate lib impl p).2 b.before buffer)).1 })
    ∧ ((∀ b : Band, p.apvts b.bypassID > 0.5) →
        (processBlock lib impl p buffer).2.2 =
          buffer.map (List.map
            (applySaturation lib.tanh (processBlock lib impl p buffer).1.saturationDrive)))
    ∧ ((∀ b : Band, p.apvts b.bypassID > 0.5) →
        (processBlock lib impl p buffer).1.saturationDrive ≤ 0.001 →
        (processBlock lib impl p buffer).2.2 = buffer) := by
  obtain ⟨h1, -, -, -, hb, hout⟩ := processBlock_eq_chain lib impl p buffer hw
  have ha := (afterUpdate_fields lib impl p).1
  have hfn : (afterUpdate lib impl p).2.saturationFunctionToUse =
      some WaveShaperFunction.applySaturation := by
    unfold afterUpdate
    rcases hf with h | h
    · rw [h]; rfl
    · cases hp : p.parametersChanged
      · simpa using h
      · rfl
  have hmain : (processBlock lib impl p buffer).2.2 =
      (runSections lib (afterUpdate lib impl p).2
        [Band.low, Band.lowMid, Band.highMid, Band.high] buffer).map
        (List.map (applySaturation lib.tanh
          (processBlock lib impl p buffer).1.saturationDrive)) := by
    rw [hout, hfn, h1]; rfl
  have hall : (∀ b : Band, p.apvts b.bypassID > 0.5) →
      runSections lib (afterUpdate lib impl p).2
        [Band.low, Band.lowMid, Band.highMid, Band.high] buffer = buffer := by
    intro h
    have l1 := h Band.low
    have l2 := h Band.lowMid
    have l3 := h Band.highMid
    have l4 := h Band.high
    simp only [Band.bypassID] at l1 l2 l3 l4
    simp only [runSections, List.foldl_cons, List.foldl_nil, ha, Band.bypassID, l1, l2, l3, l4,
      if_true]
  refine ⟨hmain, hb, ?_, ?_⟩
  · intro h
    rw [hmain, hall h]
  · intro h hd
    rw [hmain, hall h]
    have hid : applySaturation lib.tanh (processBlock lib impl p buffer).1.saturationDrive
        = id := by
      funext x
      simp [applySaturation, not_lt.2 hd]
    rw [hid]
    simp

/-- With every band of the constructed processor bypassed and `SAT_DRIVE` at 0 the stereo
unit impulse comes back unchanged. -/
theorem processBlock_chain_order_witness :
    wellFormed bypassedProcessor sampleBuffer
    ∧ bypassedProcessor.parametersChanged = true
    ∧ (processBlock sampleLibrary Impl.initial bypassedProcessor sampleBuffer).2.2 =
        sampleBuffer :=
  ⟨by decide, rfl,
   (processBlock_chain_order sampleLibrary Impl.initial bypassedProcessor sampleBuffer
      (by decide) (Or.inl rfl)).2.2.2
     (by
       intro b
       cases b <;>
         simp only [bypassedProcessor, Api550bAudioProcessor.withValue, Band.bypassID,
           Function.update_apply, reduceCtorEq, if_true, if_false] <;>
         norm_num)
     (by
       have hs : (processBlock sampleLibrary Impl.initial bypassedProcessor
           sampleBuffer).1.saturationDrive = 0 := by
         simp [processBlock, bypassedProcessor, sampleProcessor, sampleBuffer,
           Api550bAudioProcessor.withValue, Api550bAudioProcessor.construct, updateFilters,
           Function.update_apply]
       rw [hs]
       norm_num)⟩

/-- C12 fails on the code. Instance B is clean with `SAT_DRIVE` 2.0 and shapes the unit
impulse with drive 2; after instance A writes its own `SAT_DRIVE` to 0 and runs
`updateFilters`, B itself untouched and still clean, B's `processBlock` on the same buffer
shapes with drive 0 and returns a different block. -/
theorem saturationDrive_shared_between_instances :
    instanceB.2.1.parametersChanged = false
    ∧ instanceB.2.1.apvts Params.SAT_DRIVE = 2
    ∧ (processBlock sampleLibrary instanceB.1 instanceB.2.1 sampleBuffer).1.saturationDrive = 2
    ∧ (processBlock sampleLibrary instanceA.1 instanceB.2.1 sampleBuffer).1.saturationDrive = 0
    ∧ (processBlock sampleLibrary instanceB.1 instanceB.2.1 sampleBuffer).2.2 =
        [[1 / 3, 0, 0, 0], [1 / 3, 0, 0, 0]]
    ∧ (processBlock sampleLibrary instanceA.1 instanceB.2.1 sampleBuffer).2.2 =
        [[1, 0, 0, 0], [1, 0, 0, 0]]
    ∧ (processBlock sampleLibrary instanceA.1 instanceB.2.1 sampleBuffer).2.2 ≠
        (processBlock sampleLibrary instanceB.1 instanceB.2.1 sampleBuffer).2.2 := by
  have hB : instanceB = ({ saturationDrive := 2 },
      (updateFilters sampleLibrary Impl.initial sampleProcessor).2,
      [[1 / 3, 0, 0, 0], [1 / 3, 0, 0, 0]]) := by
    norm_num [instanceB, processBlock, sampleProcessor, sampleBuffer, sampleLibrary,
      Api550bAudioProcessor.construct, updateFilters, createParameterLayout,
      waveShaperProcess, applySaturation, IIRFilter.process]
  have hA : instanceA.1 = { saturationDrive := 0 } := by
    simp [instanceA, updateFilters, setParameter, parameterChanged]
  have hclean : (updateFilters sampleLibrary Impl.initial sampleProcessor).2.parametersChanged
      = false := rfl
  have hdrive : (updateFilters sampleLibrary Impl.initial sampleProcessor).2.apvts
      Params.SAT_DRIVE = 2 := by
    norm_num [updateFilters, sampleProcessor, Api550bAudioProcessor.construct,
      createParameterLayout]
  have hout : ∀ d : ℚ, processBlock sampleLibrary { saturationDrive := d }
      (updateFilters sampleLibrary Impl.initial sampleProcessor).2 sampleBuffer =
      ({ saturationDrive := d }, (updateFilters sampleLibrary Impl.initial sampleProcessor).2,
        sampleBuffer.map (List.map (applySaturation sampleLibrary.tanh d))) := by
    intro d
    norm_num [processBlock, sampleProcessor, sampleBuffer, sampleLibrary,
      Api550bAudioProcessor.construct, updateFilters, createParameterLayout,
      waveShaperProcess, IIRFilter.process]
  rw [hA, hB]
  simp only [hout]
  refine ⟨hclean, hdrive, trivial, trivial, ?_, ?_, ?_⟩ <;>
    norm_num [sampleBuffer, sampleLibrary, applySaturation]

/-- C13. Band independence: two processors whose parameter stores agree on a band's own
frequency, gain, mute and bypass values, on the band's shelf flag if it has one, and on
`Q_MODE`, and whose sample rates agree, get the same coefficient design for that band from
`updateFilters`, whatever the other bands' parameters, the saturation drive and the static
data are. -/
theorem updateFilters_band_independence {K : Type} [LinearOrderedField K] [FloorRing K]
    (lib : Library K) (impl impl' : Impl K) (p p' : Api550bAudioProcessor K) (b : Band)
    (hfreq : p.apvts b.freqID = p'.apvts b.freqID)
    (hgain : p.apvts b.gainID = p'.apvts b.gainID)
    (hmute : p.apvts b.muteID = p'.apvts b.muteID)
    (hbypass : p.apvts b.bypassID = p'.apvts b.bypassID)
    (hshelf : ∀ paramID ∈ b.shelfID, p.apvts paramID = p'.apvts paramID)
    (hq : p.apvts Params.Q_MODE = p'.apvts Params.Q_MODE)
    (hrate : p.sampleRate = p'.sampleRate) :
    designOf lib impl p b = designOf lib impl' p' b := by
  have hF : specFrequency p.apvts b = specFrequency p'.apvts b := by
    simp only [specFrequency, hfreq]
  have hG : specEffectiveGainDb p.apvts b = specEffectiveGainDb p'.apvts b := by
    simp only [specEffectiveGainDb, hmute, hgain]
  have hQ : specQ p.apvts b = specQ p'.apvts b := by
    simp only [specQ, hq, hG]
  rw [designOf_eq, designOf_eq, hF, hG, hQ, hbypass, hrate]
  cases b
  · have hs := hshelf Params.LOW_SHELF rfl
    simp only [hs, reduceCtorEq, false_and, if_false]
  · simp only [reduceCtorEq, false_and, if_false]
  · simp only [reduceCtorEq, false_and, if_false]
  · have hs := hshelf Params.HIGH_SHELF rfl
    simp only [hs, reduceCtorEq, false_and, if_false]

/-- The Low band of the constructed processor keeps its design when the Low-Mid gain, the
High shelf flag and the saturation drive are changed. -/
theorem updateFilters_band_independence_witness :
    designOf sampleLibrary Impl.initial sampleProcessor Band.low =
      designOf sampleLibrary instanceA.1
        (((sampleProcessor.withValue Params.LM_GAIN 8).withValue Params.HIGH_SHELF 1).withValue
          Params.SAT_DRIVE 7) Band.low :=
  updateFilters_band_independence sampleLibrary Impl.initial instanceA.1 sampleProcessor
    (((sampleProcessor.withValue Params.LM_GAIN 8).withValue Params.HIGH_SHELF 1).withValue
      Params.SAT_DRIVE 7) Band.low
    (by simp [Api550bAudioProcessor.withValue, Band.freqID, Function.update_apply])
    (by simp [Api550bAudioProcessor.withValue, Band.gainID, Function.update_apply])
    (by simp [Api550bAudioProcessor.withValue, Band.muteID, Function.update_apply])
    (by simp [Api550bAudioProcessor.withValue, Band.bypassID, Function.update_apply])
    (by
      intro paramID h
      cases h
      simp [Api550bAudioProcessor.withValue, Function.update_apply])
    (by simp [Api550bAudioProcessor.withValue, Function.update_apply])
    rfl

/-- C14. An all-pass coefficient set is computed but never applied: in every reachable
state, after `processBlock` on a well-formed buffer, a bypassed band holds the all-pass
design of the current parameters with its filter history untouched, and a band that is not
bypassed has had `IIR::Filter::process` run on the block the bands before it left, with the
design of the current parameters as coefficients, which is a peak, low-shelf or high-shelf
design and not an all-pass one. -/
theorem processBlock_never_applies_allPass {K : Type} [LinearOrderedField K] [FloorRing K]
    (lib : Library K) (impl : Impl K) (p : Api550bAudioProcessor K) (buffer : AudioBuffer K)
    (b : Band) (hr : Reachable lib impl p) (hw : wellFormed p buffer) :
    (processBlock lib impl p buffer).2.1.filter b =
      (if p.apvts b.bypassID > 0.5 then
        { coefficients := designOf lib impl p b, state := (p.filter b).state }
       else
        { coefficients := designOf lib impl p b
          state := (lib.iirProcess (designOf lib impl p b) (p.filter b).state
            (runSections lib (afterUpdate lib impl p).2 b.before buffer)).1 })
    ∧ (if p.apvts b.bypassID > 0.5 then
        (designOf lib impl p b).topology = Topology.allPass
       else
        (designOf lib impl p b).topology ≠ Topology.allPass
        ∧ ((designOf lib impl p b).topology = Topology.peak
          ∨ (designOf lib impl p b).topology = Topology.lowShelf
          ∨ (designOf lib impl p b).topology = Topology.highShelf)) := by
  obtain ⟨-, -, -, -, hb, -⟩ := processBlock_eq_chain lib impl p buffer hw
  obtain ⟨c1, -, -⟩ := afterUpdate_consistent lib impl p (reachable_consistent lib impl p hr)
  have hst := (afterUpdate_fields lib impl p).2.2.2.2.2.1 b
  constructor
  · rw [hb b]
    split_ifs with h
    · rw [← c1 b, ← hst]
    · rw [c1 b, hst]
  · rw [designOf_eq]
    split_ifs <;> simp [Coefficients.topology]

/-- The constructed processor, on its first stereo block, runs the Low section with the
design of its parameters. -/
theorem processBlock_never_applies_allPass_witness :
    Reachable sampleLibrary Impl.initial sampleProcessor
    ∧ wellFormed sampleProcessor sampleBuffer
    ∧ (processBlock sampleLibrary Impl.initial sampleProcessor sampleBuffer).2.1.filter Band.low =
      (if sampleProcessor.apvts Band.low.bypassID > 0.5 then
        { coefficients := designOf sampleLibrary Impl.initial sampleProcessor Band.low
          state := (sampleProcessor.filter Band.low).state }
       else
        { coefficients := designOf sampleLibrary Impl.initial sampleProcessor Band.low
          state := (sampleLibrary.iirProcess
            (designOf sampleLibrary Impl.initial sampleProcessor Band.low)
            (sampleProcessor.filter Band.low).state
            (runSections sampleLibrary (afterUpdate sampleLibrary Impl.initial sampleProcessor).2
              Band.low.before sampleBuffer)).1 }) :=
  ⟨Reachable.construct, by decide,
   (processBlock_never_applies_allPass sampleLibrary Impl.initial sampleProcessor sampleBuffer
      Band.low Reachable.construct (by decide)).1⟩

/-- C15. Scheduler consistency: in every state one instance can reach from its constructor by
`prepareToPlay`, parameter writes that fire `parameterChanged`, and `processBlock`, a clear
`parametersChanged` means that each band's stored coefficients are the design `updateFilters`
computes from the current parameter values and sample rate and that the static drive equals
the current `SAT_DRIVE`; and the constructor leaves the flag set. -/
theorem scheduler_consistency {K : Type} [LinearOrderedField K] [FloorRing K]
    (lib : Library K) (impl : Impl K) (p : Api550bAudioProcessor K)
    (hr : Reachable lib impl p) (hclean : p.parametersChanged = false) :
    (∀ b : Band, (p.filter b).coefficients = designOf lib impl p b)
    ∧ impl.saturationDrive = p.apvts Params.SAT_DRIVE
    ∧ (Api550bAudioProcessor.construct lib).parametersChanged = true := by
  obtain ⟨h1, h2, -⟩ := reachable_consistent lib impl p hr hclean
  exact ⟨h1, h2, rfl⟩

/-- The processor after a gain change and the next block is clean and consistent. -/
theorem scheduler_consistency_witness :
    (processBlock sampleLibrary Impl.initial
        (setParameter Params.LOW_GAIN 7 sampleProcessor) sampleBuffer).2.1.parametersChanged
      = false
    ∧ (processBlock sampleLibrary Impl.initial
        (setParameter Params.LOW_GAIN 7 sampleProcessor) sampleBuffer).1.saturationDrive
      = (processBlock sampleLibrary Impl.initial
        (setParameter Params.LOW_GAIN 7 sampleProcessor) sampleBuffer).2.1.apvts
          Params.SAT_DRIVE :=
  ⟨(processBlock_wellFormed sampleLibrary Impl.initial
      (setParameter Params.LOW_GAIN 7 sampleProcessor) sampleBuffer (by decide)).1,
   (scheduler_consistency sampleLibrary _ _
      (Reachable.processBlock sampleBuffer
        (Reachable.setParameter Params.LOW_GAIN 7 Reachable.construct))
      (processBlock_wellFormed sampleLibrary Impl.initial
        (setParameter Params.LOW_GAIN 7 sampleProcessor) sampleBuffer (by decide)).1).2.1⟩

/-- C16. In proportional-Q mode the Q that `updateFilters` gives a band that is not bypassed
is, for gain index `i` of the nine, the entry `i` of 2.2, 2.2, 2.2, 1.6, 1.0, 1.6, 2.2, 2.2,
2.2 when the band is not muted, and 1.0 when it is muted. These values are 1.0, 1.6 or 2.2,
are at least 1.0 and at most 2.2, are non-decreasing in the magnitude of the gain (so equal
for gains of equal magnitude), and are 2.2 for every gain of magnitude 6 dB or more. -/
theorem updateFilters_proportionalQ_values {K : Type} [LinearOrderedField K] [FloorRing K]
    (lib : Library K) (impl : Impl K) (p : Api550bAudioProcessor K) (b : Band) (i : Fin 9) :
    (designOf lib impl
        ((((p.withValue Params.Q_MODE 1).withValue b.bypassID 0).withValue b.muteID 0).withValue
          b.gainID ((i : Nat) : K)) b).Q = some ((proportionalQTable : List K).getD i 0)
    ∧ (designOf lib impl
        ((((p.withValue Params.Q_MODE 1).withValue b.bypassID 0).withValue b.muteID 1).withValue
          b.gainID ((i : Nat) : K)) b).Q = some 1.0
    ∧ ((proportionalQTable : List K).getD i 0 = 1.0
        ∨ (proportionalQTable : List K).getD i 0 = 1.6
        ∨ (proportionalQTable : List K).getD i 0 = 2.2)
    ∧ (1.0 : K) ≤ (proportionalQTable : List K).getD i 0
    ∧ (proportionalQTable : List K).getD i 0 ≤ 2.2
    ∧ (∀ j : Fin 9, |(gainDbValues : List K).getD i 0| ≤ |(gainDbValues : List K).getD j 0| →
        (proportionalQTable : List K).getD i 0 ≤ (proportionalQTable : List K).getD j 0)
    ∧ ((6 : K) ≤ |(gainDbValues : List K).getD i 0| →
        (proportionalQTable : List K).getD i 0 = 2.2) := by
  have h0 : ¬ ((0 : K) > 0.5) := by norm_num
  have h1 : (1 : K) > 0.5 := by norm_num
  have hkey : ∀ k : Fin 9, (proportionalQTable : List K).getD k 0 =
      max 0.7 (min 2.2 (1.0 + 0.2 * |(gainDbValues : List K).getD k 0|)) := by
    intro k
    fin_cases k <;> norm_num [proportionalQTable, gainDbValues]
  have hmin : min (i : Nat) 8 = i := min_eq_left (by omega)
  have hone : max (0.7 : K) (min 2.2 1.0) = 1.0 := by norm_num
  have hQ : ∀ q : Api550bAudioProcessor K, ¬ (q.apvts b.bypassID > 0.5) →
      (designOf lib impl q b).Q = some (specQ q.apvts b) := by
    intro q hb
    rw [designOf_eq]
    simp only [hb, if_false]
    split_ifs <;> rfl
  refine ⟨?_, ?_, ?_, ?_, ?_, ?_, ?_⟩
  · rw [hkey, hQ]
    · cases b <;>
        simp [specQ, specEffectiveGainDb, Band.muteID, Band.gainID, Band.bypassID,
          Function.update_apply, Api550bAudioProcessor.withValue, h0, h1, hmin]
    · cases b <;>
        simp [Band.muteID, Band.gainID, Band.bypassID, Function.update_apply,
          Api550bAudioProcessor.withValue, h0]
  · rw [hQ]
    · cases b <;>
        simp [specQ, specEffectiveGainDb, Band.muteID, Band.gainID, Band.bypassID,
          Function.update_apply, Api550bAudioProcessor.withValue, h0, h1, hone]
    · cases b <;>
        simp [Band.muteID, Band.gainID, Band.bypassID, Function.update_apply,
          Api550bAudioProcessor.withValue, h0]
  · fin_cases i <;> norm_num [proportionalQTable]
  · fin_cases i <;> norm_num [proportionalQTable]
  · fin_cases i <;> norm_num [proportionalQTable]
  · intro j hij
    rw [hkey i, hkey j]
    have : (1.0 : K) + 0.2 * |(gainDbValues : List K).getD i 0| ≤
        1.0 + 0.2 * |(gainDbValues : List K).getD j 0| := by
      have h02 : (0 : K) ≤ 0.2 := by norm_num
      have := mul_le_mul_of_nonneg_left hij h02
      linarith
    exact max_le_max le_rfl (min_le_min le_rfl this)
  · intro h6
    rw [hkey i]
    have : (2.2 : K) ≤ 1.0 + 0.2 * |(gainDbValues : List K).getD i 0| := by
      have h02 : (0 : K) ≤ 0.2 := by norm_num
      have := mul_le_mul_of_nonneg_left h6 h02
      norm_num at this ⊢
      linarith
    rw [min_eq_left this]
    norm_num

end Api550b
